import Mathlib

set_option maxRecDepth 40000

/-!
Verification development for the AK09916 magnetometer sub-driver of the
ICM20948 IMU driver (`src/drivers/imu/icm20948/ICM20948_mag.cpp`).

The driver is single-threaded and its control flow never depends on the
contents of the host's registers — only on bytes supplied by the environment
(the identity byte read during setup and the three calibration fuse bytes).
We therefore embed each operation as a pure function from its environment
inputs to the sequence of observable effects it performs (host proxy-register
writes, read-modify-write operations, blocking delays, bus reads, and calls
into the measurement sink).  The host's register file is recovered from a
trace by folding the write/modify events over an initial register valuation
(`applyTrace`), exactly as the hardware would.

The register addresses and bit constants used by the driver live in headers
(`ICM20948.hpp`, `ICM20948_mag.hpp`) that are not part of the provided
sources.  Host and auxiliary-device registers are therefore represented by
inductive types naming the registers the driver touches, and the bit-flag
constants are given concrete distinct values below; no claim depends on the
numeric choice, only on the identities of registers and bits.
-/

/-- Host (ICM20948) registers written by this sub-driver.  The numeric
addresses come from a header that is not among the provided sources; the
claims depend only on which register is targeted, so registers are named
symbolically. -/
inductive HostReg where
  | SLV0_ADDR
  | SLV0_REG
  | SLV0_CTRL
  | SLV0_DO
  | USER_CTRL
  | I2C_MST_CTRL
deriving DecidableEq, Repr

/-- Auxiliary-device (AK09916) registers addressed through the passthrough
bridge.  As with `HostReg`, the numeric addresses live in a header outside
the provided sources and the claims depend only on register identity. -/
inductive MagReg where
  | WIA
  | CNTL1
  | CNTL2
  | CNTL3
  | ASAX
  | ST1
deriving DecidableEq, Repr

/-- Distinct code standing in for the bus address of an auxiliary register
(the value the driver writes into the host's `I2C_SLV0_REG` proxy register).
The real addresses are defined in a header not among the provided sources;
the claims depend only on injectivity of this assignment. -/
def magRegAddr : MagReg → Nat
  | .WIA => 1
  | .CNTL1 => 2
  | .CNTL2 => 3
  | .CNTL3 => 4
  | .ASAX => 5
  | .ST1 => 6

/-- Modelled from the spec: the expected device-identity constant of the
auxiliary chip (`AK09916_DEVICE_ID`, defined in a header outside the
provided sources). -/
def AK09916_DEVICE_ID : Nat := 9

/-- Modelled from the spec: the auxiliary chip's bus address
(`AK09916_I2C_ADDR`, header constant). -/
def AK09916_I2C_ADDR : Nat := 12

/-- Modelled from the spec: the read-direction flag OR-ed into the proxy
address register for read transfers (`BIT_I2C_READ_FLAG`, header constant). -/
def BIT_I2C_READ_FLAG : Nat := 128

/-- Modelled from the spec: the proxy `enabled` bit OR-ed into the transfer
size written to `I2C_SLV0_CTRL` (`BIT_I2C_SLV0_EN`, header constant). -/
def BIT_I2C_SLV0_EN : Nat := 128

/-- Modelled from the spec: the host master-interface enable bit in
`USER_CTRL` (`BIT_I2C_MST_EN`, header constant). -/
def BIT_I2C_MST_EN : Nat := 32

/-- Modelled from the spec: the host master-reset bit in `USER_CTRL`
(`BIT_I2C_MST_RST`, header constant). -/
def BIT_I2C_MST_RST : Nat := 2

/-- Modelled from the spec: the two clock-configuration bits the driver
writes to `I2C_MST_CTRL` (`BIT_I2C_MST_P_NSR`, header constant). -/
def BIT_I2C_MST_P_NSR : Nat := 16

/-- Modelled from the spec: the master clock-rate selection
(`ICM_BITS_I2C_MST_CLOCK_400HZ`, header constant). -/
def ICM_BITS_I2C_MST_CLOCK_400HZ : Nat := 7

/-- Modelled from the spec: the device soft-reset command value written to
`CNTL3` (`AK09916_RESET`, header constant). -/
def AK09916_RESET : Nat := 1

/-- Modelled from the spec: the continuous-sampling mode value written to
`CNTL2` (`AK09916_CNTL2_CONTINOUS_MODE_100HZ`, header constant). -/
def AK09916_CNTL2_CONTINOUS_MODE_100HZ : Nat := 8

/-- Modelled from the spec: the fuse-access mode bits written to `CNTL1`
(`AK09916_FUZE_MODE`, header constant). -/
def AK09916_FUZE_MODE : Nat := 15

/-- Modelled from the spec: the 16-bit ADC resolution bit combined with the
fuse-access mode (`AK09916_16BIT_ADC`, header constant). -/
def AK09916_16BIT_ADC : Nat := 16

/-- Modelled from the spec: the power-down mode value written to `CNTL1`
(`AK09916_POWERDOWN_MODE`, header constant). -/
def AK09916_POWERDOWN_MODE : Nat := 0

/-- Modelled from the spec: the data-ready bit in the auxiliary chip's
`ST1` status register (`AK09916_ST1_DRDY`, header constant). -/
def AK09916_ST1_DRDY : Nat := 1

/-- Modelled from the spec: the size in bytes of one auxiliary data frame
(`sizeof(ak09916_regs)`); the spec's AuxRegisterFrame is
`{status1, x:i16, y:i16, z:i16, status2}`, eight bytes.  The struct is
declared in a header outside the provided sources. -/
def SIZEOF_AK09916_REGS : Nat := 8

/-- Success return value (`OK`) of the driver's int-returning operations. -/
def OK : Int := 0

/-- Modelled from the spec: the I/O-class errno value (`EIO`, renamed here
because the source's name is taken in Lean); the failure path returns the
negation of this value. -/
def EIO_CODE : Int := 5

/-- One auxiliary-device data frame, the spec's AuxRegisterFrame:
`{status1, x:i16, y:i16, z:i16, status2}`.  The axis fields are signed
16-bit quantities in the device; they are embedded as integers. -/
structure Ak09916Regs where
  st1 : Nat
  x : Int
  y : Int
  z : Int
  st2 : Nat
deriving DecidableEq, Repr

/-- Observable effects of the driver.  `hostWrite`/`hostModify` are the
host register operations (`_parent->write_reg`, `_parent->modify_reg`,
`_parent->modify_checked_reg`; the `checked` field distinguishes the checked
variant).  `sleep` is `px4_usleep`.  `extRead` is the fetch of transfer
results from the host's external-sensor data window
(`_parent->_interface->read(ICMREG_20948_EXT_SLV_SENS_DATA_00, ...)`), and
`ifRead` is a direct interface read of an auxiliary register.  The remaining
constructors are the calls into the measurement sink (`_px4_mag`), and
`perfCount` stands for a performance-counter increment (the class owns
overrun/overflow/error counters; none of the embedded operations increments
one, and the constructor exists so that this absence is expressible). -/
inductive Event where
  | hostWrite (r : HostReg) (v : Nat)
  | hostModify (r : HostReg) (clearbits setbits : Nat) (checked : Bool)
  | sleep (us : Nat)
  | extRead (count : Nat)
  | ifRead (r : MagReg) (count : Nat)
  | setExternal (b : Bool)
  | setTemperature (t : ℚ)
  | update (ts : Nat) (x y z : Int)
  | setSensitivity (x y z : ℚ)
  | perfCount (c : Nat)
deriving DecidableEq, Repr

/-- Modelled from the spec: the effect of one host register operation on the
host's (8-bit) register file.  `writeHostRegister` stores the value;
`modifyHostRegister(addr, clearMask, setMask)` read-modify-writes
`(old AND NOT clearMask) OR setMask` (the checked variant additionally
re-reads to verify, which does not change the register file).  The host's
implementation lives outside the provided sources. -/
def applyEvent (regs : HostReg → Nat) : Event → (HostReg → Nat)
  | .hostWrite r v => fun r2 => if r2 = r then v else regs r2
  | .hostModify r c s _ => fun r2 => if r2 = r then ((regs r &&& (255 ^^^ c)) ||| s) else regs r2
  | _ => regs

/-- Register file reached from `regs` after the effects of a trace. -/
def applyTrace (regs : HostReg → Nat) (t : List Event) : HostReg → Nat :=
  t.foldl applyEvent regs

/-- ICM20948_mag::set_passthrough (ICM20948_mag.cpp lines 99-117): program
one proxy transfer.  Disable the previous transfer, stage the output byte
when writing (presence of `out` selects the direction, as in the source
where `out` is a possibly-null pointer), program target address with the
direction flag, program target register, then program size and re-enable. -/
def set_passthrough (reg : MagReg) (size : Nat) (out : Option Nat) : List Event :=
  Event.hostWrite HostReg.SLV0_CTRL 0 ::
    ((match out with
      | some v => [Event.hostWrite HostReg.SLV0_DO v,
                   Event.hostWrite HostReg.SLV0_ADDR AK09916_I2C_ADDR]
      | none => [Event.hostWrite HostReg.SLV0_ADDR (AK09916_I2C_ADDR ||| BIT_I2C_READ_FLAG)]) ++
     [Event.hostWrite HostReg.SLV0_REG (magRegAddr reg),
      Event.hostWrite HostReg.SLV0_CTRL (size ||| BIT_I2C_SLV0_EN)])

/-- ICM20948_mag::write_reg (lines 142-149): one auxiliary register write
via the bridge — program a 1-byte write transfer, wait the settle delay,
disable further writes. -/
def write_reg (reg : MagReg) (value : Nat) : List Event :=
  set_passthrough reg 1 (some value) ++
    [Event.sleep 50, Event.hostWrite HostReg.SLV0_CTRL 0]

/-- ICM20948_mag::read_reg (lines 119-132), effect part: program a 1-byte
read transfer, wait the settle delay (`25 + 25 * 1`), fetch the byte from
the host's data window, disable further reads.  The byte obtained is an
environment input and is threaded separately by the callers. -/
def read_reg_events (reg : MagReg) : List Event :=
  set_passthrough reg 1 none ++
    [Event.sleep (25 + 25 * 1), Event.extRead 1,
     Event.hostWrite HostReg.SLV0_CTRL 0]

/-- ICM20948_mag::ak09916_setup_master_i2c (lines 195-205): enable the host
master interface (checked modify) and program its clock control. -/
def ak09916_setup_master_i2c : List Event :=
  [Event.hostModify HostReg.USER_CTRL 0 BIT_I2C_MST_EN true,
   Event.hostWrite HostReg.I2C_MST_CTRL (BIT_I2C_MST_P_NSR ||| ICM_BITS_I2C_MST_CLOCK_400HZ)]

/-- Effects of one iteration of the `do`-body of ak09916_setup up to and
including the identity read (lines 213-218): reconfigure the master
interface, reset the auxiliary device, read the identity register
(`ak09916_check_id`, lines 134-140). -/
def attemptBlock : List Event :=
  ak09916_setup_master_i2c ++
    write_reg MagReg.CNTL3 AK09916_RESET ++
    read_reg_events MagReg.WIA

/-- Effects of one full failed iteration of the `do`-body (lines 213-225):
the attempt, then `retries--`, set the host master-reset bit (a modify with
empty clear mask) and wait the recovery delay. -/
def failBlock : List Event :=
  attemptBlock ++
    [Event.hostModify HostReg.USER_CTRL 0 BIT_I2C_MST_RST false, Event.sleep 200]

/-- The `do { ... } while (retries > 0)` loop of ak09916_setup (lines
209-226).  `ids n` is the byte returned by the identity read of the
`(n+1)`-th iteration (an environment input).  Returns the produced events
and the value of `retries` at loop exit.  On a matching identity the loop
breaks with `retries` unchanged; on a mismatch `retries` is decremented,
the master-reset bit is set and the recovery delay elapses, and the loop
re-enters while `retries > 0`.  The driver enters the loop with
`retries = 20`, so `retries ≥ 1` holds at every iteration entry; the
`retries = 0` equation below is unreachable from `ak09916_setup`. -/
def setupLoop (ids : Nat → Nat) (n retries : Nat) : List Event × Nat :=
  if ids n = AK09916_DEVICE_ID then
    (attemptBlock, retries)
  else
    match retries with
    | 0 => (failBlock, 0)
    | 1 => (failBlock, 0)
    | r + 2 =>
      let rest := setupLoop ids (n + 1) (r + 1)
      (failBlock ++ rest.1, rest.2)

/-- Effects of the success tail of ak09916_setup (lines 235-241): put the
device into continuous-sampling mode and program the bridge for an
auto-refresh read window of one full data frame. -/
def setupDoneTail : List Event :=
  write_reg MagReg.CNTL2 AK09916_CNTL2_CONTINOUS_MODE_100HZ ++
    set_passthrough MagReg.ST1 SIZEOF_AK09916_REGS none

/-- ICM20948_mag::ak09916_setup (lines 206-242): run the retry loop with
`retries = 20`; if the counter reached zero, disable the host master
interface, zero its clock control and return `-EIO`; otherwise finish
configuration and return `OK`. -/
def ak09916_setup (ids : Nat → Nat) : List Event × Int :=
  let p := setupLoop ids 0 20
  if p.2 = 0 then
    (p.1 ++ [Event.hostModify HostReg.USER_CTRL BIT_I2C_MST_EN 0 true,
             Event.hostWrite HostReg.I2C_MST_CTRL 0], -EIO_CODE)
  else
    (p.1 ++ setupDoneTail, OK)

/-- The per-axis sensitivity conversion of ak09916_read_adjustments (line
183): `((float)(response[i] - 128) / 256.0f) + 1.0f`.  The byte is promoted
to a signed integer before the subtraction; every intermediate value is
exactly representable in single-precision floating point (the numerator is
an integer of magnitude at most 127 and the result is an integer multiple
of 2^-8 below 2), so the computation is embedded exactly over ℚ. -/
def asaOf (v : Nat) : ℚ := (((v : ℤ) - 128 : ℤ) : ℚ) / 256 + 1

/-- Effects of ak09916_read_adjustments up to the validation loop (lines
174-179): enter fuse-access mode with the 16-bit ADC flag, wait, read the
three fuse bytes, command the device back to power-down mode. -/
def adjustmentsLead : List Event :=
  write_reg MagReg.CNTL1 (AK09916_FUZE_MODE ||| AK09916_16BIT_ADC) ++
    [Event.sleep 50, Event.ifRead MagReg.ASAX 3] ++
    write_reg MagReg.CNTL1 AK09916_POWERDOWN_MODE

/-- ICM20948_mag::ak09916_read_adjustments (lines 168-193).  `r0 r1 r2` are
the three fuse bytes returned by the interface read (environment inputs).
The `for` loop over the three bytes with its early `return false` is
unrolled: each byte must differ from both sentinels `0x00` and `0xff`, and
only when all three pass is the converted sensitivity vector pushed to the
sink (line 190) and `true` returned. -/
def ak09916_read_adjustments (r0 r1 r2 : Nat) : List Event × Bool :=
  if r0 ≠ 0 ∧ r0 ≠ 255 then
    if r1 ≠ 0 ∧ r1 ≠ 255 then
      if r2 ≠ 0 ∧ r2 ≠ 255 then
        (adjustmentsLead ++ [Event.setSensitivity (asaOf r0) (asaOf r1) (asaOf r2)], true)
      else (adjustmentsLead, false)
    else (adjustmentsLead, false)
  else (adjustmentsLead, false)

/-- ICM20948_mag::_measure (lines 72-97): drop the frame silently when the
data-ready bit of `status1` is clear; otherwise tag the sample with the
externally-mounted flag and host temperature and publish it with the axes
remapped to `(y, x, -z)`. -/
def _measure (timestamp_sample : Nat) (data : Ak09916Regs)
    (is_external : Bool) (last_temperature : ℚ) : List Event :=
  if data.st1 &&& AK09916_ST1_DRDY = 0 then
    []
  else
    [Event.setExternal is_external,
     Event.setTemperature last_temperature,
     Event.update timestamp_sample data.y data.x (-data.z)]

/-- Predicate: the event is a fetch from the host's external-sensor data
window; one identity-read attempt performs exactly one such fetch. -/
def isExtRead : Event → Bool
  | .extRead _ => true
  | _ => false

/-- Suffix of a trace strictly after its `(k+1)`-th data-window fetch (so
`afterExtReads (k-1) t` is what follows the `k`-th identity read of `t`). -/
def afterExtReads : Nat → List Event → List Event
  | _, [] => []
  | k, e :: t =>
    if isExtRead e then
      match k with
      | 0 => t
      | k2 + 1 => afterExtReads k2 t
    else afterExtReads k t

/-- Predicate: the event begins a device-reset or master-reset operation —
either the bridge targets the auxiliary soft-reset register `CNTL3`, or a
host operation sets the master-reset bit. -/
def isResetOp : Event → Bool
  | .hostWrite .SLV0_REG v => v == magRegAddr .CNTL3
  | .hostModify .USER_CTRL _ s _ => decide (s &&& BIT_I2C_MST_RST ≠ 0)
  | _ => false

/-- Predicate: a host modify that programs the master-interface enable bit
with an empty clear mask — the enable step of `ak09916_setup_master_i2c`. -/
def isMasterEnableOp : Event → Bool
  | .hostModify .USER_CTRL c s _ => c == 0 && decide (s &&& BIT_I2C_MST_EN ≠ 0)
  | _ => false

/-- Predicate: a write to the host's master clock control register. -/
def isMstClockWrite : Event → Bool
  | .hostWrite .I2C_MST_CTRL _ => true
  | _ => false

/-- Predicate: a host operation that sets the master-reset bit. -/
def setsMstRst : Event → Bool
  | .hostWrite .USER_CTRL v => decide (v &&& BIT_I2C_MST_RST ≠ 0)
  | .hostModify .USER_CTRL _ s _ => decide (s &&& BIT_I2C_MST_RST ≠ 0)
  | _ => false

/-- Predicate: a host operation that clears the master-reset bit — a direct
write leaving the bit clear, or a modify whose clear mask covers the bit
and whose set mask does not restore it. -/
def clearsMstRst : Event → Bool
  | .hostWrite .USER_CTRL v => decide (v &&& BIT_I2C_MST_RST = 0)
  | .hostModify .USER_CTRL c s _ =>
      decide (c &&& BIT_I2C_MST_RST ≠ 0) && decide (s &&& BIT_I2C_MST_RST = 0)
  | _ => false

/-- Predicate: a published sample (sink `update` call). -/
def isUpdate : Event → Bool
  | .update _ _ _ _ => true
  | _ => false

/-- Predicate: a sink `set_sensitivity` call. -/
def isSetSensitivity : Event → Bool
  | .setSensitivity _ _ _ => true
  | _ => false

/-- Predicate: a proxy DO-register write staging the power-down command. -/
def isPowerdownStage : Event → Bool
  | .hostWrite .SLV0_DO v => v == AK09916_POWERDOWN_MODE
  | _ => false

/-- Predicate: a write reprogramming the proxy target (address or register
proxy register). -/
def isTargetWrite : Event → Bool
  | .hostWrite .SLV0_ADDR _ => true
  | .hostWrite .SLV0_REG _ => true
  | _ => false

/-- The proxy `enabled` flag after one event: a write to the proxy control
register updates it according to the enable bit, any other event leaves it
unchanged. -/
def stepEnabled (b : Bool) : Event → Bool
  | .hostWrite .SLV0_CTRL v => decide (v &&& BIT_I2C_SLV0_EN ≠ 0)
  | _ => b

/-- Bridge-protocol invariant checker: scanning a trace with the proxy
`enabled` flag starting at `b`, every reprogramming of the proxy target
must find the proxy disabled. -/
def targetSafe : Bool → List Event → Bool
  | _, [] => true
  | b, e :: t => (!(isTargetWrite e) || !b) && targetSafe (stepEnabled b e) t

/-- Concatenation of `n` copies of a block of events. -/
def repBlocks (l : List Event) : Nat → List Event
  | 0 => []
  | n + 1 => l ++ repBlocks l n

/-- The sensitivity conversion formula as the spec states it — byte value
`v` maps to `(v - 128) / 256 + 1.0` — for comparison against the code's
`asaOf`. -/
def specSens (v : Nat) : ℚ := ((v : ℚ) - 128) / 256 + 1

/-- Identity-byte environment in which the expected constant first appears
on the second read. -/
def idsPassSecond : Nat → Nat := fun n => if n = 0 then 0 else AK09916_DEVICE_ID

/-- Identity-byte environment in which the expected constant never
appears. -/
def idsAlwaysBad : Nat → Nat := fun _ => 0


/-- Flattened effect trace of a sequence of bridge calls: each element of
the list is one `set_passthrough` invocation `(register, size, optional
output byte)`. -/
def bridgeCalls : List (MagReg × Nat × Option Nat) → List Event
  | [] => []
  | c :: rest => set_passthrough c.1 c.2.1 c.2.2 ++ bridgeCalls rest

/-- Bitmask fact: OR-ing a mask in guarantees the mask's bits read back. -/
lemma lor_land_self (a m : Nat) : (a ||| m) &&& m = m := by
  apply Nat.eq_of_testBit_eq
  intro i
  simp only [Nat.testBit_land, Nat.testBit_lor]
  cases h : m.testBit i <;> simp [h]

/-- Bitmask fact: after a modify that clears the master-enable bit (clear
mask `BIT_I2C_MST_EN`, set mask `0`), the master-enable bit reads back 0
whatever the previous register value was. -/
lemma mst_en_cleared (x : Nat) :
    ((x &&& (255 ^^^ BIT_I2C_MST_EN)) ||| 0) &&& BIT_I2C_MST_EN = 0 := by
  rw [Nat.or_zero]
  show (x &&& (255 ^^^ 32)) &&& 32 = 0
  apply Nat.eq_of_testBit_eq
  intro i
  simp only [Nat.testBit_land, Nat.zero_testBit]
  by_cases hi : i = 5
  · subst hi
    have h223 : (255 ^^^ 32 : Nat).testBit 5 = false := by decide
    rw [h223, Bool.and_false, Bool.false_and]
  · have h32 : Nat.testBit 32 i = false := by
      rw [show (32 : Nat) = 2 ^ 5 by norm_num, Nat.testBit_two_pow]
      simpa using fun h => hi h.symm
    rw [h32, Bool.and_false]

/-- Counting a predicate over repeated blocks multiplies the per-block
count. -/
lemma countP_repBlocks (p : Event → Bool) (l : List Event) :
    ∀ n, (repBlocks l n).countP p = n * l.countP p := by
  intro n
  induction n with
  | zero => simp [repBlocks]
  | succ n ih =>
    simp only [repBlocks, List.countP_append, ih]
    ring

/-- Unfolding of the retry loop on a failed attempt with at least two
retries remaining: the failed attempt's events are emitted, the counter is
decremented and the loop re-enters. -/
lemma setupLoop_fail_step (ids : Nat → Nat) (n m : Nat)
    (h : ids n ≠ AK09916_DEVICE_ID) :
    setupLoop ids n (m + 2) =
      (failBlock ++ (setupLoop ids (n + 1) (m + 1)).1,
       (setupLoop ids (n + 1) (m + 1)).2) := by
  rw [setupLoop.eq_def]
  simp [h]

/-- Unfolding of the retry loop on a successful identity check: the loop
breaks with the retry counter unchanged. -/
lemma setupLoop_pass (ids : Nat → Nat) (n r : Nat)
    (h : ids n = AK09916_DEVICE_ID) :
    setupLoop ids n r = (attemptBlock, r) := by
  rw [setupLoop.eq_def]
  simp [h]

/-- Unfolding of the retry loop on a failed attempt with one retry left:
the loop exits with the counter at zero. -/
lemma setupLoop_fail_last (ids : Nat → Nat) (n : Nat)
    (h : ids n ≠ AK09916_DEVICE_ID) :
    setupLoop ids n 1 = (failBlock, 0) := by
  rw [setupLoop.eq_def]
  simp [h]

/-- Behavior of the retry loop when the expected identity first appears on
the `(j+1)`-th read within the window: `j` failed attempts are followed by
one passing attempt, and the loop exits with the counter decremented `j`
times. -/
lemma setupLoop_success (ids : Nat → Nat) :
    ∀ j n r, j < r → (∀ i, i < j → ids (n + i) ≠ AK09916_DEVICE_ID) →
      ids (n + j) = AK09916_DEVICE_ID →
      setupLoop ids n r = (repBlocks failBlock j ++ attemptBlock, r - j) := by
  intro j
  induction j with
  | zero =>
    intro n r hr hf hp
    rw [Nat.add_zero] at hp
    rw [setupLoop_pass ids n r hp]
    simp [repBlocks]
  | succ j ih =>
    intro n r hr hf hp
    have h0 : ids n ≠ AK09916_DEVICE_ID := by
      have h := hf 0 (Nat.succ_pos j)
      rwa [Nat.add_zero] at h
    obtain ⟨m, rfl⟩ : ∃ m, r = m + 2 := ⟨r - 2, by omega⟩
    have hf2 : ∀ i, i < j → ids (n + 1 + i) ≠ AK09916_DEVICE_ID := by
      intro i hi
      have h := hf (i + 1) (by omega)
      rwa [show n + (i + 1) = n + 1 + i by omega] at h
    have hp2 : ids (n + 1 + j) = AK09916_DEVICE_ID := by
      rwa [show n + 1 + j = n + (j + 1) by omega]
    rw [setupLoop_fail_step ids n m h0, ih (n + 1) (m + 1) (by omega) hf2 hp2]
    simp only [repBlocks, List.append_assoc]
    rw [show m + 1 - j = m + 2 - (j + 1) by omega]

/-- Behavior of the retry loop when the expected identity never appears in
the window: `r` failed attempts and exit with the counter at zero. -/
lemma setupLoop_exhaust (ids : Nat → Nat) :
    ∀ r n, 1 ≤ r → (∀ i, i < r → ids (n + i) ≠ AK09916_DEVICE_ID) →
      setupLoop ids n r = (repBlocks failBlock r, 0) := by
  intro r
  induction r with
  | zero => intro n h; omega
  | succ r ih =>
    intro n hr hf
    have h0 : ids n ≠ AK09916_DEVICE_ID := by
      have h := hf 0 (Nat.succ_pos r)
      rwa [Nat.add_zero] at h
    match r, ih with
    | 0, _ =>
      rw [setupLoop_fail_last ids n h0]
      simp [repBlocks]
    | r + 1, ih =>
      have hf2 : ∀ i, i < r + 1 → ids (n + 1 + i) ≠ AK09916_DEVICE_ID := by
        intro i hi
        have h := hf (i + 1) (by omega)
        rwa [show n + (i + 1) = n + 1 + i by omega] at h
      rw [setupLoop_fail_step ids n r h0, ih (n + 1) (by omega) hf2]
      simp [repBlocks]

/-- One failed attempt consumes exactly one pending identity read. -/
lemma afterExtReads_failBlock (j : Nat) (s : List Event) :
    afterExtReads (j + 1) (failBlock ++ s) = afterExtReads j s := by
  simp [failBlock, attemptBlock, ak09916_setup_master_i2c, write_reg,
        read_reg_events, set_passthrough, afterExtReads, isExtRead]

/-- Repeated failed attempts consume one pending identity read each. -/
lemma afterExtReads_repFail : ∀ (j : Nat) (s : List Event),
    afterExtReads j (repBlocks failBlock j ++ s) = afterExtReads 0 s := by
  intro j
  induction j with
  | zero => intro s; simp [repBlocks]
  | succ j ih =>
    intro s
    simp only [repBlocks, List.append_assoc]
    rw [afterExtReads_failBlock, ih]

/-- What follows the identity read of a passing attempt: the bridge-disable
write of `read_reg` and then whatever comes after the attempt. -/
lemma afterExtReads_attempt (s : List Event) :
    afterExtReads 0 (attemptBlock ++ s) =
      Event.hostWrite HostReg.SLV0_CTRL 0 :: s := by
  simp [attemptBlock, ak09916_setup_master_i2c, write_reg, read_reg_events,
        set_passthrough, afterExtReads, isExtRead]

/-- Full trace and return value of ak09916_setup when the expected identity
first appears on the `k`-th read, `1 ≤ k ≤ 20`. -/
lemma ak09916_setup_success_trace (ids : Nat → Nat) (k : Nat)
    (h1 : 1 ≤ k) (h2 : k ≤ 20)
    (hf : ∀ i, i < k - 1 → ids i ≠ AK09916_DEVICE_ID)
    (hp : ids (k - 1) = AK09916_DEVICE_ID) :
    ak09916_setup ids =
      (repBlocks failBlock (k - 1) ++ attemptBlock ++ setupDoneTail, OK) := by
  have hL := setupLoop_success ids (k - 1) 0 20 (by omega)
    (fun i hi => by simpa using hf i hi) (by simpa using hp)
  have hne : (20 : Nat) - (k - 1) ≠ 0 := by omega
  simp [ak09916_setup, hL, hne, List.append_assoc]

/-- Full trace and return value of ak09916_setup when the expected identity
never appears in the 20-read window. -/
lemma ak09916_setup_fail_trace (ids : Nat → Nat)
    (hf : ∀ i, i < 20 → ids i ≠ AK09916_DEVICE_ID) :
    ak09916_setup ids =
      (repBlocks failBlock 20 ++
        [Event.hostModify HostReg.USER_CTRL BIT_I2C_MST_EN 0 true,
         Event.hostWrite HostReg.I2C_MST_CTRL 0], -EIO_CODE) := by
  have hL := setupLoop_exhaust ids 20 0 (by omega) (fun i hi => by simpa using hf i hi)
  simp [ak09916_setup, hL]

/-- C1: for every sequence of identity-register read results in which the
expected device-identity constant first appears on attempt `k` with
`1 ≤ k ≤ 20`, `ak09916_setup` returns `OK` having performed exactly `k`
identity-read attempts, and after the successful attempt's identity read
the trace contains no further device-reset or master-reset operation. -/
theorem ak09916_setup_ok_after_k_attempts (ids : Nat → Nat) (k : Nat)
    (h1 : 1 ≤ k) (h2 : k ≤ 20)
    (hf : ∀ i, i < k - 1 → ids i ≠ AK09916_DEVICE_ID)
    (hp : ids (k - 1) = AK09916_DEVICE_ID) :
    (ak09916_setup ids).2 = OK ∧
    (ak09916_setup ids).1.countP isExtRead = k ∧
    (afterExtReads (k - 1) (ak09916_setup ids).1).all (fun e => !isResetOp e) = true := by
  rw [ak09916_setup_success_trace ids k h1 h2 hf hp]
  refine ⟨rfl, ?_, ?_⟩
  · show (repBlocks failBlock (k - 1) ++ attemptBlock ++ setupDoneTail).countP isExtRead = k
    have c1 : failBlock.countP isExtRead = 1 := by decide
    have c2 : (attemptBlock ++ setupDoneTail).countP isExtRead = 1 := by decide
    rw [List.append_assoc, List.countP_append, countP_repBlocks, c1, c2]
    omega
  · show (afterExtReads (k - 1)
      (repBlocks failBlock (k - 1) ++ attemptBlock ++ setupDoneTail)).all
        (fun e => !isResetOp e) = true
    rw [List.append_assoc, afterExtReads_repFail, afterExtReads_attempt]
    decide

/-- Witness for the setup success theorem: with the identity byte appearing
on the second read, setup returns `OK` after exactly two attempts and no
reset operation follows the successful read. -/
theorem ak09916_setup_ok_after_k_attempts_witness :
    (1 ≤ 2 ∧ 2 ≤ 20 ∧ idsPassSecond (2 - 1) = AK09916_DEVICE_ID) ∧
    ((ak09916_setup idsPassSecond).2 = OK ∧
     (ak09916_setup idsPassSecond).1.countP isExtRead = 2 ∧
     (afterExtReads (2 - 1) (ak09916_setup idsPassSecond).1).all
       (fun e => !isResetOp e) = true) :=
  ⟨⟨by decide, by decide, by decide⟩,
   ak09916_setup_ok_after_k_attempts idsPassSecond 2 (by decide) (by decide)
     (fun i hi => by interval_cases i; decide) (by decide)⟩

/-- C2: if the expected identity constant never appears in any of the 20
attempts, `ak09916_setup` returns the I/O-class initialization error
`-EIO`, and — from any initial host register file — the final register
state has the master-interface enable bit cleared and the master clock
register at 0; exactly 20 identity-read attempts are performed, none after
the bridge is disabled. -/
theorem ak09916_setup_failure_disables_bridge (ids : Nat → Nat)
    (regs : HostReg → Nat)
    (hf : ∀ i, i < 20 → ids i ≠ AK09916_DEVICE_ID) :
    (ak09916_setup ids).2 = -EIO_CODE ∧
    applyTrace regs (ak09916_setup ids).1 HostReg.USER_CTRL &&& BIT_I2C_MST_EN = 0 ∧
    applyTrace regs (ak09916_setup ids).1 HostReg.I2C_MST_CTRL = 0 ∧
    (ak09916_setup ids).1.countP isExtRead = 20 := by
  rw [ak09916_setup_fail_trace ids hf]
  have key1 : ∀ (R : HostReg → Nat),
      List.foldl applyEvent R
        [Event.hostModify HostReg.USER_CTRL BIT_I2C_MST_EN 0 true,
         Event.hostWrite HostReg.I2C_MST_CTRL 0] HostReg.USER_CTRL
        = ((R HostReg.USER_CTRL &&& (255 ^^^ BIT_I2C_MST_EN)) ||| 0) :=
    fun R => rfl
  have key2 : ∀ (R : HostReg → Nat),
      List.foldl applyEvent R
        [Event.hostModify HostReg.USER_CTRL BIT_I2C_MST_EN 0 true,
         Event.hostWrite HostReg.I2C_MST_CTRL 0] HostReg.I2C_MST_CTRL = 0 :=
    fun R => rfl
  refine ⟨rfl, ?_, ?_, ?_⟩
  · show applyTrace regs
      (repBlocks failBlock 20 ++
        [Event.hostModify HostReg.USER_CTRL BIT_I2C_MST_EN 0 true,
         Event.hostWrite HostReg.I2C_MST_CTRL 0]) HostReg.USER_CTRL &&&
        BIT_I2C_MST_EN = 0
    rw [applyTrace, List.foldl_append, key1]
    exact mst_en_cleared _
  · show applyTrace regs
      (repBlocks failBlock 20 ++
        [Event.hostModify HostReg.USER_CTRL BIT_I2C_MST_EN 0 true,
         Event.hostWrite HostReg.I2C_MST_CTRL 0]) HostReg.I2C_MST_CTRL = 0
    rw [applyTrace, List.foldl_append, key2]
  · show (repBlocks failBlock 20 ++
        [Event.hostModify HostReg.USER_CTRL BIT_I2C_MST_EN 0 true,
         Event.hostWrite HostReg.I2C_MST_CTRL 0]).countP isExtRead = 20
    have c1 : failBlock.countP isExtRead = 1 := by decide
    rw [List.countP_append, countP_repBlocks, c1]
    decide

/-- Witness for the setup failure theorem: with an identity byte that never
matches and an all-ones initial register file, setup returns `-EIO`, ends
with the enable bit cleared and a zero clock register, after exactly 20
attempts. -/
theorem ak09916_setup_failure_disables_bridge_witness :
    (ak09916_setup idsAlwaysBad).2 = -EIO_CODE ∧
    applyTrace (fun _ => 255) (ak09916_setup idsAlwaysBad).1 HostReg.USER_CTRL &&&
      BIT_I2C_MST_EN = 0 ∧
    applyTrace (fun _ => 255) (ak09916_setup idsAlwaysBad).1 HostReg.I2C_MST_CTRL = 0 ∧
    (ak09916_setup idsAlwaysBad).1.countP isExtRead = 20 :=
  ak09916_setup_failure_disables_bridge idsAlwaysBad (fun _ => 255)
    (fun i _ => by show (0 : Nat) ≠ AK09916_DEVICE_ID; decide)

/-- Counterexample to the claim that the master-interface enable bit and
clock-rate setting are programmed exactly once per execution of the retry
loop: with the identity appearing on the second read, the successful run
programs both twice — once per loop attempt. -/
theorem ak09916_setup_master_config_twice :
    (ak09916_setup idsPassSecond).2 = OK ∧
    (ak09916_setup idsPassSecond).1.countP isMasterEnableOp = 2 ∧
    (ak09916_setup idsPassSecond).1.countP isMstClockWrite = 2 :=
  ⟨by decide, by decide, by decide⟩

/-- C8 amended: in every execution of the retry loop that succeeds on
attempt `k`, the host's master-interface enable bit and clock-rate setting
are programmed exactly `k` times — once per loop attempt (the
`ak09916_setup_master_i2c` call sits inside the `do` body), not once per
execution. -/
theorem ak09916_setup_master_config_per_attempt (ids : Nat → Nat) (k : Nat)
    (h1 : 1 ≤ k) (h2 : k ≤ 20)
    (hf : ∀ i, i < k - 1 → ids i ≠ AK09916_DEVICE_ID)
    (hp : ids (k - 1) = AK09916_DEVICE_ID) :
    (ak09916_setup ids).1.countP isMasterEnableOp = k ∧
    (ak09916_setup ids).1.countP isMstClockWrite = k := by
  rw [ak09916_setup_success_trace ids k h1 h2 hf hp]
  constructor
  · show (repBlocks failBlock (k - 1) ++ attemptBlock ++ setupDoneTail).countP
      isMasterEnableOp = k
    have c1 : failBlock.countP isMasterEnableOp = 1 := by decide
    have c2 : (attemptBlock ++ setupDoneTail).countP isMasterEnableOp = 1 := by decide
    rw [List.append_assoc, List.countP_append, countP_repBlocks, c1, c2]
    omega
  · show (repBlocks failBlock (k - 1) ++ attemptBlock ++ setupDoneTail).countP
      isMstClockWrite = k
    have c1 : failBlock.countP isMstClockWrite = 1 := by decide
    have c2 : (attemptBlock ++ setupDoneTail).countP isMstClockWrite = 1 := by decide
    rw [List.append_assoc, List.countP_append, countP_repBlocks, c1, c2]
    omega

/-- Witness for the per-attempt master-configuration theorem at the
concrete environment succeeding on the second attempt. -/
theorem ak09916_setup_master_config_per_attempt_witness :
    (1 ≤ 2 ∧ 2 ≤ 20 ∧ idsPassSecond (2 - 1) = AK09916_DEVICE_ID) ∧
    ((ak09916_setup idsPassSecond).1.countP isMasterEnableOp = 2 ∧
     (ak09916_setup idsPassSecond).1.countP isMstClockWrite = 2) :=
  ⟨⟨by decide, by decide, by decide⟩,
   ak09916_setup_master_config_per_attempt idsPassSecond 2 (by decide) (by decide)
     (fun i hi => by interval_cases i; decide) (by decide)⟩

/-- Counterexample to the claim that each failed attempt clears and then
re-sets the host master-reset bit: a run of 20 failed attempts contains 20
host operations setting the master-reset bit and not a single operation
clearing it. -/
theorem ak09916_setup_never_clears_mst_rst :
    (ak09916_setup idsAlwaysBad).1.countP setsMstRst = 20 ∧
    (ak09916_setup idsAlwaysBad).1.countP clearsMstRst = 0 :=
  ⟨by decide, by decide⟩

/-- C9 amended: on every failed identity check with retries remaining, the
loop decrements the retry counter, sets the host master-reset bit (a modify
with an empty clear mask — the bit is not cleared first), waits the fixed
200 time-unit recovery delay, and loops back to reconfigure the master
interface and retry. -/
theorem ak09916_setup_retry_path (ids : Nat → Nat) (n r : Nat)
    (h : ids n ≠ AK09916_DEVICE_ID) (hr : 1 < r) :
    setupLoop ids n r =
      (attemptBlock ++
        ([Event.hostModify HostReg.USER_CTRL 0 BIT_I2C_MST_RST false,
          Event.sleep 200] ++ (setupLoop ids (n + 1) (r - 1)).1),
       (setupLoop ids (n + 1) (r - 1)).2) ∧
    [Event.hostModify HostReg.USER_CTRL 0 BIT_I2C_MST_RST false,
     Event.sleep 200].countP clearsMstRst = 0 := by
  obtain ⟨m, rfl⟩ : ∃ m, r = m + 2 := ⟨r - 2, by omega⟩
  refine ⟨?_, by decide⟩
  rw [setupLoop_fail_step ids n m h, show m + 2 - 1 = m + 1 by omega]
  simp [failBlock, List.append_assoc]

/-- Witness for the retry-path theorem at the never-matching environment
entered with the initial retry count of 20. -/
theorem ak09916_setup_retry_path_witness :
    (idsAlwaysBad 0 ≠ AK09916_DEVICE_ID ∧ 1 < 20) ∧
    (setupLoop idsAlwaysBad 0 20 =
      (attemptBlock ++
        ([Event.hostModify HostReg.USER_CTRL 0 BIT_I2C_MST_RST false,
          Event.sleep 200] ++ (setupLoop idsAlwaysBad 1 (20 - 1)).1),
       (setupLoop idsAlwaysBad 1 (20 - 1)).2) ∧
     [Event.hostModify HostReg.USER_CTRL 0 BIT_I2C_MST_RST false,
      Event.sleep 200].countP clearsMstRst = 0) :=
  ⟨⟨by decide, by decide⟩,
   ak09916_setup_retry_path idsAlwaysBad 0 20 (by decide) (by decide)⟩

/-- C4: a frame whose `status1` data-ready flag is set produces exactly one
published sample — tagged with the external flag and host temperature —
whose axes are the raw `(x, y, z)` remapped to `(y, x, -z)` and whose
timestamp is the provided one. -/
theorem measure_publishes_remapped_sample (ts : Nat) (d : Ak09916Regs)
    (ext : Bool) (temp : ℚ) (h : d.st1 &&& AK09916_ST1_DRDY ≠ 0) :
    _measure ts d ext temp =
      [Event.setExternal ext, Event.setTemperature temp,
       Event.update ts d.y d.x (-d.z)] ∧
    (_measure ts d ext temp).countP isUpdate = 1 := by
  rw [_measure, if_neg h]
  refine ⟨rfl, ?_⟩
  simp [List.countP_cons, isUpdate]

/-- Witness for the publish theorem: the claim's concrete frame with raw
axes `(10, 20, 30)` and the ready bit set yields exactly the one sample
`(20, 10, -30)`. -/
theorem measure_publishes_remapped_sample_witness :
    ((⟨1, 10, 20, 30, 0⟩ : Ak09916Regs).st1 &&& AK09916_ST1_DRDY ≠ 0) ∧
    (_measure 5 ⟨1, 10, 20, 30, 0⟩ false 0 =
      [Event.setExternal false, Event.setTemperature 0,
       Event.update 5 20 10 (-30)] ∧
     (_measure 5 ⟨1, 10, 20, 30, 0⟩ false 0).countP isUpdate = 1) :=
  ⟨by decide, measure_publishes_remapped_sample 5 ⟨1, 10, 20, 30, 0⟩ false 0 (by decide)⟩

/-- C5: a frame whose `status1` data-ready flag is clear is dropped
silently — `_measure` performs no call into the measurement sink, surfaces
no error and increments no counter (its effect list is empty). -/
theorem measure_drops_not_ready (ts : Nat) (d : Ak09916Regs)
    (ext : Bool) (temp : ℚ) (h : d.st1 &&& AK09916_ST1_DRDY = 0) :
    _measure ts d ext temp = [] := by
  rw [_measure, if_pos h]

/-- Witness for the drop theorem at a concrete not-ready frame. -/
theorem measure_drops_not_ready_witness :
    ((⟨0, 10, 20, 30, 0⟩ : Ak09916Regs).st1 &&& AK09916_ST1_DRDY = 0) ∧
    _measure 7 ⟨0, 10, 20, 30, 0⟩ true 3 = [] :=
  ⟨by decide, measure_drops_not_ready 7 ⟨0, 10, 20, 30, 0⟩ true 3 (by decide)⟩

/-- C3: whenever any of the three calibration bytes equals `0x00` or
`0xff`, the calibration reader returns failure and never calls the sink's
`set_sensitivity` — no partial calibration is applied. -/
theorem read_adjustments_sentinel_aborts (r0 r1 r2 : Nat)
    (h : r0 = 0 ∨ r0 = 255 ∨ r1 = 0 ∨ r1 = 255 ∨ r2 = 0 ∨ r2 = 255) :
    (ak09916_read_adjustments r0 r1 r2).2 = false ∧
    (ak09916_read_adjustments r0 r1 r2).1.countP isSetSensitivity = 0 := by
  have hlead : adjustmentsLead.countP isSetSensitivity = 0 := by decide
  rw [ak09916_read_adjustments]
  split_ifs with h0 h1 h2
  · exfalso
    obtain ⟨a0, b0⟩ := h0
    obtain ⟨a1, b1⟩ := h1
    obtain ⟨a2, b2⟩ := h2
    rcases h with h | h | h | h | h | h <;> omega
  · exact ⟨rfl, hlead⟩
  · exact ⟨rfl, hlead⟩
  · exact ⟨rfl, hlead⟩

/-- Witness for the sentinel-abort theorem at bytes `(0, 5, 7)`. -/
theorem read_adjustments_sentinel_aborts_witness :
    ((0 : Nat) = 0 ∨ (0 : Nat) = 255 ∨ (5 : Nat) = 0 ∨ (5 : Nat) = 255 ∨
      (7 : Nat) = 0 ∨ (7 : Nat) = 255) ∧
    ((ak09916_read_adjustments 0 5 7).2 = false ∧
     (ak09916_read_adjustments 0 5 7).1.countP isSetSensitivity = 0) :=
  ⟨by decide, read_adjustments_sentinel_aborts 0 5 7 (by decide)⟩

/-- C7: when all three calibration bytes lie strictly inside `[1, 254]`,
calibration succeeds, the sink's `set_sensitivity` is called exactly once,
and the sensitivity emitted for a byte of value `v` is
`(v - 128) / 256 + 1.0` on each axis (`specSens` states the spec's formula;
the code's `asaOf` agrees with it). -/
theorem read_adjustments_converts_valid_bytes (r0 r1 r2 : Nat)
    (h0 : 1 ≤ r0 ∧ r0 ≤ 254) (h1 : 1 ≤ r1 ∧ r1 ≤ 254)
    (h2 : 1 ≤ r2 ∧ r2 ≤ 254) :
    (ak09916_read_adjustments r0 r1 r2).2 = true ∧
    (ak09916_read_adjustments r0 r1 r2).1.countP isSetSensitivity = 1 ∧
    Event.setSensitivity (specSens r0) (specSens r1) (specSens r2) ∈
      (ak09916_read_adjustments r0 r1 r2).1 := by
  have e0 : r0 ≠ 0 ∧ r0 ≠ 255 := by omega
  have e1 : r1 ≠ 0 ∧ r1 ≠ 255 := by omega
  have e2 : r2 ≠ 0 ∧ r2 ≠ 255 := by omega
  have hasa : ∀ v : Nat, asaOf v = specSens v := by
    intro v
    unfold asaOf specSens
    push_cast
    ring
  rw [ak09916_read_adjustments, if_pos e0, if_pos e1, if_pos e2]
  refine ⟨rfl, ?_, ?_⟩
  · have hlead : adjustmentsLead.countP isSetSensitivity = 0 := by decide
    rw [List.countP_append, hlead]
    simp [List.countP_cons, isSetSensitivity]
  · rw [hasa r0, hasa r1, hasa r2]
    simp

/-- Witness for the conversion theorem at the claim's example bytes
`(128, 1, 254)` (sensitivities `1`, `129/256 ≈ 0.504`, `382/256 ≈ 1.492`). -/
theorem read_adjustments_converts_valid_bytes_witness :
    ((1 ≤ 128 ∧ 128 ≤ 254) ∧ (1 ≤ 1 ∧ 1 ≤ 254) ∧ (1 ≤ 254 ∧ 254 ≤ 254)) ∧
    ((ak09916_read_adjustments 128 1 254).2 = true ∧
     (ak09916_read_adjustments 128 1 254).1.countP isSetSensitivity = 1 ∧
     Event.setSensitivity (specSens 128) (specSens 1) (specSens 254) ∈
       (ak09916_read_adjustments 128 1 254).1) :=
  ⟨⟨by decide, by decide, by decide⟩,
   read_adjustments_converts_valid_bytes 128 1 254 (by decide) (by decide) (by decide)⟩

/-- C10: in every execution of the calibration reader — whatever the three
fuse bytes — the power-down command is staged into the bridge exactly once,
and the trace always starts with the fixed pre-validation segment (which
contains that power-down write); a sentinel failure therefore never skips
the power-down. -/
theorem read_adjustments_always_powers_down (r0 r1 r2 : Nat) :
    (ak09916_read_adjustments r0 r1 r2).1.countP isPowerdownStage = 1 ∧
    (ak09916_read_adjustments r0 r1 r2).1.take adjustmentsLead.length =
      adjustmentsLead := by
  rw [ak09916_read_adjustments]
  have hlead : adjustmentsLead.countP isPowerdownStage = 1 := by decide
  split_ifs
  · constructor
    · rw [List.countP_append, hlead]
      simp [List.countP_cons, isPowerdownStage]
    · exact List.take_left adjustmentsLead _
  · exact ⟨hlead, List.take_length adjustmentsLead ▸ rfl⟩
  · exact ⟨hlead, List.take_length adjustmentsLead ▸ rfl⟩
  · exact ⟨hlead, List.take_length adjustmentsLead ▸ rfl⟩

/-- C6: the bridge never reprograms the proxy target while the proxy
`enabled` flag is set.  First conjunct: over any sequence of
`set_passthrough` calls, starting from any enabled state, every write to
the proxy address or register proxy registers finds the proxy disabled
(each call begins by writing 0 to the control register, and only its final
control write re-enables).  Second conjunct: each call emits, in strict
order, the disable write, the staged output byte when writing, the target
address with the direction flag, the target register, and finally the size
with the enable bit. -/
theorem set_passthrough_disable_before_reprogram :
    (∀ (calls : List (MagReg × Nat × Option Nat)) (b : Bool),
      targetSafe b (bridgeCalls calls) = true) ∧
    (∀ (reg : MagReg) (size : Nat) (out : Option Nat),
      set_passthrough reg size out =
        [Event.hostWrite HostReg.SLV0_CTRL 0] ++
        (match out with
         | some v => [Event.hostWrite HostReg.SLV0_DO v,
                      Event.hostWrite HostReg.SLV0_ADDR AK09916_I2C_ADDR]
         | none => [Event.hostWrite HostReg.SLV0_ADDR
                      (AK09916_I2C_ADDR ||| BIT_I2C_READ_FLAG)]) ++
        [Event.hostWrite HostReg.SLV0_REG (magRegAddr reg),
         Event.hostWrite HostReg.SLV0_CTRL (size ||| BIT_I2C_SLV0_EN)]) := by
  constructor
  · intro calls
    induction calls with
    | nil => intro b; rfl
    | cons c rest ih =>
      intro b
      obtain ⟨reg, size, out⟩ := c
      cases out with
      | none =>
        simp [bridgeCalls, set_passthrough, targetSafe, stepEnabled,
              isTargetWrite, lor_land_self, ih]
      | some v =>
        simp [bridgeCalls, set_passthrough, targetSafe, stepEnabled,
              isTargetWrite, lor_land_self, ih]
  · intro reg size out
    cases out <;> rfl
